import Mathlib

/-!
Shallow embedding of `src/src/dds/rs-dds-device-proxy.cpp` (the librealsense
DDS device proxy): stream-catalog construction, the post-link pass over the
post-synthesis profiles, default-profile tagging, extrinsics-edge
registration and metadata routing.

Conventions:
* C++ strings are modelled as `List Char` where character-level parsing
  matters (stream names) and as `String` elsewhere.
* Machine `int` is modelled as `Int`, with the `int`-range check of
  `std::stoi` made explicit.
* Floating-point calibration numbers are only ever copied by this file of
  the source (via `memcpy` / struct assignment), never computed with, so
  they are modelled as opaque `Int` values; only the integer `width` and
  `height` fields are compared.
* `std::map` is modelled as an association list whose lookup returns the
  first matching key; `insert` (which does NOT overwrite an existing key)
  and `operator[]` assignment (which does) get separate operations.
-/

/-- Decidable equality for `Except`, so that concrete runs of the
fallible operations can be checked by `decide`. -/
instance instDecEqExcept {ε α : Type} [DecidableEq ε] [DecidableEq α] :
    DecidableEq (Except ε α) := fun x y =>
  match x, y with
  | .ok a, .ok b =>
    if h : a = b then isTrue (h ▸ rfl) else isFalse fun hh => h (Except.ok.inj hh)
  | .ok _, .error _ => isFalse fun hh => Except.noConfusion hh
  | .error _, .ok _ => isFalse fun hh => Except.noConfusion hh
  | .error e, .error f =>
    if h : e = f then isTrue (h ▸ rfl) else isFalse fun hh => h (Except.error.inj hh)

/-- The subset of the `rs2_stream` enumeration produced by
`to_rs2_stream_type`.  In the source, `sid_index` stores the enum value in
its `sid` field; the five values are pairwise distinct machine ints, so
using the inductive itself as a map-key component is a faithful
relabeling. -/
inductive Rs2Stream
  | depth
  | color
  | infrared
  | motion
  | confidence
deriving DecidableEq

/-- The whitespace characters skipped by `std::stoi` (C locale `isspace`):
space, tab, newline, vertical tab, form feed, carriage return. -/
def isSpaceChar (c : Char) : Bool :=
  c = ' ' || c = '\t' || c = '\n' || c = '\x0b' || c = '\x0c' || c = '\r'

/-- The exceptions `std::stoi` can throw: `std::invalid_argument` when no
digits can be parsed, `std::out_of_range` when the value does not fit in
`int`. -/
inductive StoiError
  | invalidArgument
  | outOfRange
deriving DecidableEq

/-- `INT_MAX` for the 32-bit `int` used by the source. -/
def intMax : Int := 2147483647

/-- `INT_MIN` for the 32-bit `int` used by the source. -/
def intMin : Int := -2147483648

/-- Numeric value of a list of decimal digit characters. -/
def digitsToNat (ds : List Char) : Nat :=
  ds.foldl (fun acc c => acc * 10 + (c.toNat - 48)) 0

/-- Strip one optional leading sign, returning whether the value is
negated together with the remaining characters. -/
def stripSign (t : List Char) : Bool × List Char :=
  match t with
  | [] => (false, [])
  | c :: rest =>
    if c = '-' then (true, rest)
    else if c = '+' then (false, rest)
    else (false, c :: rest)

/-- `std::stoi` applied to a whole string: skip C-locale whitespace, accept
one optional sign, require at least one decimal digit, take the maximal
decimal-digit prefix as the value, and range-check against `int`. -/
def stoi (s : List Char) : Except StoiError Int :=
  let signed := stripSign (s.dropWhile isSpaceChar)
  let ds := signed.2.takeWhile Char.isDigit
  if ds = [] then .error .invalidArgument
  else
    let mag : Int := (digitsToNat ds : Nat)
    let v : Int := if signed.1 then -mag else mag
    if v < intMin ∨ intMax < v then .error .outOfRange else .ok v

/-- `name.substr(delimiter_pos + 1, name.size())` after
`name.find('_')`: everything after the first underscore, when the name
contains one. -/
def afterFirstUnderscore : List Char → Option (List Char)
  | [] => none
  | c :: cs => if c = '_' then some cs else afterFirstUnderscore cs

/-- `dds_device_proxy::get_index_from_stream_name`: index 0 when the name
contains no underscore, otherwise `std::stoi` of everything after the
first underscore (`std::stoi` can throw, which aborts construction). -/
def get_index_from_stream_name (name : List Char) : Except StoiError Int :=
  match afterFirstUnderscore name with
  | none => .ok 0
  | some tl => stoi tl

/-- Modelled from the spec: everything after the LAST underscore, when the
name contains one.  Used only to compare the spec sentence "index equals
the integer parsed after the last underscore" against the code's
first-underscore behavior. -/
def afterLastUnderscore (name : List Char) : Option (List Char) :=
  if '_' ∈ name then some (name.reverse.takeWhile (fun c => c ≠ '_')).reverse
  else none

/-- Modelled from the spec: "index equals the integer parsed after the last
underscore; for names without an underscore, index is 0". -/
def spec_index_after_last_underscore (name : List Char) : Except StoiError Int :=
  match afterLastUnderscore name with
  | none => .ok 0
  | some tl => stoi tl

/-- Claim C10's predicate, read literally on a raw substring: the string
begins with a decimal digit, optionally preceded by one sign character. -/
def beginsWithOptSignedDigit (s : List Char) : Bool :=
  match s with
  | [] => false
  | c :: rest =>
    if c = '+' ∨ c = '-' then
      match rest with
      | [] => false
      | d :: _ => d.isDigit
    else c.isDigit

/-- `to_rs2_stream_type`: the closed tag set accepted by the proxy; any
other tag throws `invalid_value_exception` (whose message wraps the tag in
single quotes in the source; the quotes are elided here). -/
def to_rs2_stream_type (type_string : String) : Except String Rs2Stream :=
  if type_string = "color" then .ok .color
  else if type_string = "confidence" then .ok .confidence
  else if type_string = "depth" then .ok .depth
  else if type_string = "ir" then .ok .infrared
  else if type_string = "motion" then .ok .motion
  else .error ("unknown stream type " ++ type_string)

/-- `realdds::video_intrinsics` (per-resolution calibration record).  The
field spelling `focal_lenght_x/y` is the source's. -/
structure VideoIntrinsics where
  width : Int
  height : Int
  principal_point_x : Int
  principal_point_y : Int
  focal_lenght_x : Int
  focal_lenght_y : Int
  distortion_model : Int
  distortion_coeffs : List Int
deriving DecidableEq

/-- `realdds::motion_intrinsics`. -/
structure MotionIntrinsics where
  data : List Int
  noise_variances : List Int
  bias_variances : List Int
deriving DecidableEq

/-- `rs2_intrinsics` as filled by `set_video_profile_intrinsics` (field by
field, coefficients by `memcpy`). -/
structure Rs2Intrinsics where
  width : Int
  height : Int
  ppx : Int
  ppy : Int
  fx : Int
  fy : Int
  model : Int
  coeffs : List Int
deriving DecidableEq

/-- `rs2_motion_device_intrinsic` as filled by
`set_motion_profile_intrinsics` (three `memcpy`s). -/
structure Rs2MotionDeviceIntrinsic where
  data : List Int
  noise_variances : List Int
  bias_variances : List Int
deriving DecidableEq

/-- The field-by-field copy done by `set_video_profile_intrinsics` (and by
`to_rs2_video_stream`) from a matched `video_intrinsics` record. -/
def rs2IntrinsicsOfVideo (i : VideoIntrinsics) : Rs2Intrinsics :=
  { width := i.width
    height := i.height
    ppx := i.principal_point_x
    ppy := i.principal_point_y
    fx := i.focal_lenght_x
    fy := i.focal_lenght_y
    model := i.distortion_model
    coeffs := i.distortion_coeffs }

/-- The three-`memcpy` copy done by `set_motion_profile_intrinsics`. -/
def rs2MotionIntrinsicsOf (m : MotionIntrinsics) : Rs2MotionDeviceIntrinsic :=
  { data := m.data
    noise_variances := m.noise_variances
    bias_variances := m.bias_variances }

/-- The video-specific part of a `realdds::dds_video_stream_profile`
(`format().to_rs2()` is modelled as the resulting `rs2_format` code). -/
structure DdsVideoData where
  width : Int
  height : Int
  format : Int
deriving DecidableEq

/-- A `realdds::dds_stream_profile`: video profiles carry `some` video
data, motion profiles carry `none`. -/
structure DdsStreamProfile where
  frequency : Int
  video : Option DdsVideoData
deriving DecidableEq

/-- Whether a `realdds::dds_stream` dynamic-casts to `dds_video_stream` or
to `dds_motion_stream`. -/
inductive StreamKind
  | videoKind
  | motionKind
deriving DecidableEq

/-- A `realdds::dds_stream` as consumed by the proxy constructor: name,
sensor-group name, type tag, profile list with default-profile index,
kind, and the intrinsics exposed by `get_intrinsics` (video) or
`get_gyro_intrinsics` (motion). -/
structure DdsStream where
  name : List Char
  sensor_name : String
  type_string : String
  profiles : List DdsStreamProfile
  default_profile_index : Nat
  kind : StreamKind
  video_intrinsics : List VideoIntrinsics
  gyro_intrinsics : MotionIntrinsics
deriving DecidableEq

/-- `sid_index`: a stream id paired with a stream index.  The same struct
is also used with an `rs2_stream` enum value in the `sid` slot as the
dedup-map key; that key use is modelled as the pair `Rs2Stream × Int`. -/
structure SidIndex where
  sid : Int
  index : Int
deriving DecidableEq

/-- First-match association-list lookup (`std::map::find`). -/
def alookup {α β : Type} [DecidableEq α] : List (α × β) → α → Option β
  | [], _ => none
  | (k, v) :: rest, a => if k = a then some v else alookup rest a

/-- `std::map::operator[] = v`: replace the binding when the key is
present, append it otherwise. -/
def massign {α β : Type} [DecidableEq α] : List (α × β) → α → β → List (α × β)
  | [], a, b => [(a, b)]
  | (k, v) :: rest, a, b =>
    if k = a then (k, b) :: rest else (k, v) :: massign rest a b

/-- `std::map::insert`: does nothing when the key is already present. -/
def minsert {α β : Type} [DecidableEq α] (m : List (α × β)) (a : α) (b : β) :
    List (α × β) :=
  match alookup m a with
  | some _ => m
  | none => m ++ [(a, b)]

/-- Append one entry to the list held under a key (used for the per-sensor
`sidx → dds_stream` map accumulated by `add_dds_stream`). -/
def mappendEntry {γ : Type} : List (String × List γ) → String → γ → List (String × List γ)
  | [], a, g => [(a, [g])]
  | (k, v) :: rest, a, g =>
    if k = a then (k, v ++ [g]) :: rest else (k, v) :: mappendEntry rest a g

/-- The errors that abort proxy construction in the modelled code paths:
an unknown stream-type tag (`invalid_value_exception`), a stream-name
index that `std::stoi` rejects, and an `std::out_of_range` from
`std::map::at` on the dedup map during the post-link pass. -/
inductive BuildErr
  | unknownType (msg : String)
  | indexParse (e : StoiError)
  | keyNotFound (key : Rs2Stream × Int)
deriving DecidableEq

/-- The state accumulated by the `foreach_stream` catalog-build lambda:
the next fresh stream id (`environment::generate_stream_id`), the sensor
names in first-seen order, the dedup map `type_and_index_to_dds_stream_sidx`,
`_stream_name_to_librs_stream` (each handle recorded by its constructor
arguments `(stream_type, sidx.index)`), `_stream_name_to_owning_sensor`
(the owning sensor recorded by name), and each sensor proxy's
`sidx → dds_stream` map. -/
structure CatalogState where
  next_sid : Int
  sensors : List String
  dedup : List ((Rs2Stream × Int) × SidIndex)
  name_to_handle : List (List Char × (Rs2Stream × Int))
  name_to_owner : List (List Char × String)
  sensor_streams : List (String × List (SidIndex × DdsStream))
deriving DecidableEq

/-- One iteration of the `foreach_stream` lambda (construction lines
142-202): create the sensor on first encounter, translate the type tag,
parse the index, allocate a fresh `sid_index`, and update the maps.  The
raw-profile synthesis loop (lines 169-189) feeds the sensor's
formats-converter, whose output is the post-synthesis profile list taken
as input by the post-link pass below, and is not itself modelled. -/
def processStream (st : CatalogState) (stream : DdsStream) :
    Except BuildErr CatalogState :=
  let sensors :=
    if stream.sensor_name ∈ st.sensors then st.sensors
    else st.sensors ++ [stream.sensor_name]
  match to_rs2_stream_type stream.type_string with
  | .error msg => .error (.unknownType msg)
  | .ok stream_type =>
    match get_index_from_stream_name stream.name with
    | .error e => .error (.indexParse e)
    | .ok index =>
      let sidx : SidIndex := ⟨st.next_sid, index⟩
      let key : Rs2Stream × Int := (stream_type, index)
      .ok { next_sid := st.next_sid + 1
            sensors := sensors
            dedup := minsert st.dedup key sidx
            name_to_handle := massign st.name_to_handle stream.name key
            name_to_owner := massign st.name_to_owner stream.name stream.sensor_name
            sensor_streams := mappendEntry st.sensor_streams stream.sensor_name (sidx, stream) }

/-- Process the remote streams in delivery order; the first error aborts
construction. -/
def processStreams (st : CatalogState) : List DdsStream → Except BuildErr CatalogState
  | [] => .ok st
  | s :: rest =>
    match processStream st s with
    | .error e => .error e
    | .ok st2 => processStreams st2 rest

/-- The empty catalog state, parametrised by the first fresh stream id the
process-wide generator will hand out. -/
def initCatalog (sid0 : Int) : CatalogState :=
  { next_sid := sid0
    sensors := []
    dedup := []
    name_to_handle := []
    name_to_owner := []
    sensor_streams := [] }

/-- The whole catalog-build pass of the constructor. -/
def buildCatalog (streams : List DdsStream) (sid0 : Int) :
    Except BuildErr CatalogState :=
  processStreams (initCatalog sid0) streams

/-- A concrete motion-intrinsics record for examples. -/
def exMotionIntr : MotionIntrinsics :=
  { data := [1], noise_variances := [2], bias_variances := [3] }

/-- Concrete depth stream named `Depth_1`. -/
def exStreamA : DdsStream :=
  { name := "Depth_1".toList
    sensor_name := "Stereo Module"
    type_string := "depth"
    profiles := [{ frequency := 30, video := some { width := 640, height := 480, format := 1 } }]
    default_profile_index := 0
    kind := .videoKind
    video_intrinsics := []
    gyro_intrinsics := exMotionIntr }

/-- Concrete second depth stream, named `Other_1`, whose type and parsed
index collide with `exStreamA`'s dedup key. -/
def exStreamB : DdsStream :=
  { exStreamA with name := "Other_1".toList }

/-- A video profile's intrinsics accessor.  `synthWired` models the wiring
left by the synthesis step, which (per the constructor's comment, lines
237-239 of the source) makes the raw profile call the target's accessor,
which by default calls the raw again — so each evaluation step only
delegates and never produces a value.  `captured` models the
value-capturing lambda installed by `set_video_profile_intrinsics`. -/
inductive VideoAccessor
  | synthWired
  | captured (i : Rs2Intrinsics)
deriving DecidableEq

/-- A motion profile's intrinsics accessor, analogous. -/
inductive MotionAccessor
  | synthWired
  | captured (i : Rs2MotionDeviceIntrinsic)
deriving DecidableEq

/-- Fuel-indexed evaluation of a video accessor: the captured-value lambda
returns immediately; the synthesis wiring delegates forever and never
returns a value. -/
def evalVideoAccessor : VideoAccessor → Nat → Option Rs2Intrinsics
  | .captured i, _ => some i
  | .synthWired, 0 => none
  | .synthWired, n + 1 => evalVideoAccessor .synthWired n

/-- Fuel-indexed evaluation of a motion accessor. -/
def evalMotionAccessor : MotionAccessor → Nat → Option Rs2MotionDeviceIntrinsic
  | .captured i, _ => some i
  | .synthWired, 0 => none
  | .synthWired, n + 1 => evalMotionAccessor .synthWired n

/-- Whether a post-synthesis profile dynamic-casts to
`video_stream_profile` (carrying width, height, format and a video
accessor) or to `motion_stream_profile` (carrying a motion accessor). -/
inductive ProfileShape
  | videoShape (width height : Int) (format : Int) (acc : VideoAccessor)
  | motionShape (acc : MotionAccessor)
deriving DecidableEq

/-- A post-synthesis `stream_profile_interface` as seen by the post-link
pass: stream type, stream index, public unique id (possibly clobbered by
the formats-converter's clone), framerate, shape, and whether
`PROFILE_TAG_DEFAULT` has been applied. -/
structure LocalProfile where
  stream_type : Rs2Stream
  stream_index : Int
  unique_id : Int
  framerate : Int
  shape : ProfileShape
  default_tagged : Bool
deriving DecidableEq

/-- The `std::find_if` over the stream's intrinsics set: first record whose
width and height equal the profile's. -/
def findVideoIntrinsics (l : List VideoIntrinsics) (w h : Int) :
    Option VideoIntrinsics :=
  l.find? fun intr => decide (w = intr.width) && decide (h = intr.height)

/-- `dds_device_proxy::set_video_profile_intrinsics`: when a record with
the profile's width and height exists, install a lambda capturing the
copied record by value; otherwise leave the profile untouched ("Some
profiles don't have intrinsics").  A motion-shaped profile would make the
source's `dynamic_pointer_cast` return null; that path is never exercised
by the proxy and is modelled as a no-op. -/
def set_video_profile_intrinsics (profile : LocalProfile) (stream : DdsStream) :
    LocalProfile :=
  match profile.shape with
  | .motionShape _ => profile
  | .videoShape w h fmt _ =>
    match findVideoIntrinsics stream.video_intrinsics w h with
    | none => profile
    | some intr =>
      { profile with shape := .videoShape w h fmt (.captured (rs2IntrinsicsOfVideo intr)) }

/-- `dds_device_proxy::set_motion_profile_intrinsics`: install a lambda
capturing the copied gyro-intrinsics record by value.  (Null-cast caveat
as for the video case.) -/
def set_motion_profile_intrinsics (profile : LocalProfile) (stream : DdsStream) :
    LocalProfile :=
  match profile.shape with
  | .videoShape _ _ _ _ => profile
  | .motionShape _ =>
    { profile with shape := .motionShape (.captured (rs2MotionIntrinsicsOf stream.gyro_intrinsics)) }

/-- `dds_device_proxy::set_profile_intrinsics`: dispatch on the dynamic
kind of the dds stream. -/
def set_profile_intrinsics (profile : LocalProfile) (stream : DdsStream) :
    LocalProfile :=
  match stream.kind with
  | .videoKind => set_video_profile_intrinsics profile stream
  | .motionKind => set_motion_profile_intrinsics profile stream

/-- `realdds::dds_stream::default_profile`:
`profiles()[default_profile_index()]`. -/
def default_profile (stream : DdsStream) : Option DdsStreamProfile :=
  stream.profiles[stream.default_profile_index]?

/-- `dds_device_proxy::tag_default_profile_of_stream`: tag iff the profile
has the stream's type and the remote default profile's framerate, unless
both the profile and the remote default are video-shaped and differ in
width, height or format.  `realdds` guarantees a valid default-profile
index, so the `none` branch is unreachable for well-formed streams. -/
def tag_default_profile_of_stream (profile : LocalProfile) (stream : DdsStream) :
    Except BuildErr LocalProfile :=
  match default_profile stream with
  | none => .ok profile
  | some dds_default_profile =>
    match to_rs2_stream_type stream.type_string with
    | .error msg => .error (.unknownType msg)
    | .ok t =>
      if profile.stream_type = t ∧ profile.framerate = dds_default_profile.frequency then
        match profile.shape, dds_default_profile.video with
        | .videoShape w h fmt _, some dv =>
          if w ≠ dv.width ∨ h ≠ dv.height ∨ fmt ≠ dv.format then .ok profile
          else .ok { profile with default_tagged := true }
        | _, _ => .ok { profile with default_tagged := true }
      else .ok profile

/-- One iteration of the post-link loop (construction lines 210-245) for a
single post-synthesis profile: build the `(type, index)` key, look it up
with `std::map::at` on the dedup map (which THROWS `std::out_of_range`
when the key is absent), then look the resulting `sid_index` up in the
sensor's own stream map (absence here is logged "no dds stream" and
skipped, leaving the profile untouched); on a match, restore the unique
id, re-bind the intrinsics accessor, and apply default tagging. -/
def post_link_profile (dedup : List ((Rs2Stream × Int) × SidIndex))
    (streams : List (SidIndex × DdsStream)) (profile : LocalProfile) :
    Except BuildErr LocalProfile :=
  let key : Rs2Stream × Int := (profile.stream_type, profile.stream_index)
  match alookup dedup key with
  | none => .error (.keyNotFound key)
  | some sidx =>
    match alookup streams sidx with
    | none => .ok profile
    | some stream =>
      let p1 : LocalProfile := { profile with unique_id := sidx.sid }
      let p2 := set_profile_intrinsics p1 stream
      tag_default_profile_of_stream p2 stream

/-- The post-link loop over one sensor's post-synthesis profile list; a
thrown exception aborts construction, otherwise every profile is kept. -/
def post_link_sensor (dedup : List ((Rs2Stream × Int) × SidIndex))
    (streams : List (SidIndex × DdsStream)) (profiles : List LocalProfile) :
    Except BuildErr (List LocalProfile) :=
  profiles.mapM (post_link_profile dedup streams)

/-- `realdds::extrinsics`: a 3x3 rotation and a 3-vector translation,
components opaque. -/
structure DdsExtrinsics where
  rotation : List Int
  translation : List Int
deriving DecidableEq

/-- `rs2_extrinsics` as produced by `to_rs2_extrinsics` (two `memcpy`s). -/
structure Rs2Extrinsics where
  rotation : List Int
  translation : List Int
deriving DecidableEq

/-- `to_rs2_extrinsics`. -/
def to_rs2_extrinsics (e : DdsExtrinsics) : Rs2Extrinsics :=
  { rotation := e.rotation, translation := e.translation }

/-- A stream name; the extrinsics pass iterates
`_stream_name_to_librs_stream`, whose keys are unique names, and the graph
node registered for an edge endpoint is the one `librealsense::stream`
object stored under that name — so a node is identified here by its
name. -/
abbrev StreamName := List Char

/-- A directed extrinsics edge as registered with
`extrinsics_graph::register_extrinsics`: from-stream node, to-stream node,
transform. -/
abbrev ExtrEdge := StreamName × StreamName × Rs2Extrinsics

/-- Inner loop of extrinsics pass 1 (construction lines 267-282): for one
`from` name, walk every `to` entry; skip equal names; query
`get_extrinsics(from, to)`; a `none` answer adds nothing ("missing
extrinsics" is only logged), a `some` answer registers one directed
edge. -/
def pass1Inner (getExtr : StreamName → StreamName → Option DdsExtrinsics)
    (fromName : StreamName) : List (StreamName × (Rs2Stream × Int)) → List ExtrEdge
  | [] => []
  | (toName, _) :: rest =>
    if fromName ≠ toName then
      match getExtr fromName toName with
      | none => pass1Inner getExtr fromName rest
      | some de => (fromName, toName, to_rs2_extrinsics de) :: pass1Inner getExtr fromName rest
    else pass1Inner getExtr fromName rest

/-- Outer loop of extrinsics pass 1. -/
def pass1Outer (getExtr : StreamName → StreamName → Option DdsExtrinsics)
    (all : List (StreamName × (Rs2Stream × Int))) :
    List (StreamName × (Rs2Stream × Int)) → List ExtrEdge
  | [] => []
  | (fromName, _) :: rest =>
    pass1Inner getExtr fromName all ++ pass1Outer getExtr all rest

/-- Extrinsics pass 1, the edge-registration double loop over
`_stream_name_to_librs_stream`. -/
def register_extrinsics_edges (nameToHandle : List (StreamName × (Rs2Stream × Int)))
    (getExtr : StreamName → StreamName → Option DdsExtrinsics) : List ExtrEdge :=
  pass1Outer getExtr nameToHandle nameToHandle

/-- Boolean selector for edges directed from `a` to `b`. -/
def edgeFromTo (a b : StreamName) (x : ExtrEdge) : Bool :=
  decide (x.1 = a) && decide (x.2.1 = b)

/-- A metadata payload as consumed by the `on_metadata_available` lambda:
the `stream-name` field plus an opaque remainder. -/
structure MetadataMsg where
  stream_name : StreamName
  payload : Nat
deriving DecidableEq

/-- The `on_metadata_available` lambda (construction lines 250-257): look
the payload's stream name up in `_stream_name_to_owning_sensor`; on a hit,
one `handle_new_metadata` invocation on the owning sensor; on a miss,
nothing.  Returns the invocation list together with the (untouched)
routing map. -/
def route_metadata (owners : List (StreamName × String)) (md : MetadataMsg) :
    List (String × MetadataMsg) × List (StreamName × String) :=
  match alookup owners md.stream_name with
  | some sensor => ([(sensor, md)], owners)
  | none => ([], owners)

/-- A post-synthesis infrared profile with index 0, as the
formats-converter can synthesize (e.g. a plain `Y8` infrared rendition)
even when the remote catalog only described indexed infrared streams. -/
def c2Profile : LocalProfile :=
  { stream_type := .infrared
    stream_index := 0
    unique_id := -1
    framerate := 30
    shape := .videoShape 640 480 2 .synthWired
    default_tagged := false }

/-- A concrete video intrinsics record at 1280x720. -/
def exIntr720 : VideoIntrinsics :=
  { width := 1280, height := 720
    principal_point_x := 9, principal_point_y := 8
    focal_lenght_x := 7, focal_lenght_y := 6
    distortion_model := 0, distortion_coeffs := [0, 0, 0, 0, 0] }

/-- A concrete depth stream whose only intrinsics record is 1280x720. -/
def c6Stream : DdsStream :=
  { name := "Depth_0".toList
    sensor_name := "Stereo Module"
    type_string := "depth"
    profiles := [{ frequency := 30, video := some { width := 1280, height := 720, format := 1 } }]
    default_profile_index := 0
    kind := .videoKind
    video_intrinsics := [exIntr720]
    gyro_intrinsics := exMotionIntr }

/-- A post-synthesis 640x480 depth profile: framerate differs from the
default's and no 640x480 intrinsics record exists on `c6Stream`. -/
def c6Profile : LocalProfile :=
  { stream_type := .depth
    stream_index := 0
    unique_id := 0
    framerate := 60
    shape := .videoShape 640 480 1 .synthWired
    default_tagged := false }

/-- Dedup map matching `c6Profile` to the stream id 50. -/
def c6Dedup : List ((Rs2Stream × Int) × SidIndex) := [((.depth, 0), ⟨50, 0⟩)]

/-- Sensor stream map holding `c6Stream` under the id 50. -/
def c6Streams : List (SidIndex × DdsStream) := [(⟨50, 0⟩, c6Stream)]

/-! ## Helper lemmas -/

/-- A name without an underscore yields no suffix. -/
theorem afterFirstUnderscore_eq_none :
    ∀ (name : List Char), '_' ∉ name → afterFirstUnderscore name = none
  | [], _ => rfl
  | c :: cs, h => by
    have hc : ¬ (c = '_') := fun hc => h (by simp [hc])
    simp only [afterFirstUnderscore, if_neg hc]
    exact afterFirstUnderscore_eq_none cs (fun hm => h (List.mem_cons_of_mem _ hm))

/-- The suffix found by `find` / `substr` is everything after the first
underscore. -/
theorem afterFirstUnderscore_append :
    ∀ (pre post : List Char), '_' ∉ pre →
      afterFirstUnderscore (pre ++ '_' :: post) = some post
  | [], post, _ => by simp [afterFirstUnderscore]
  | c :: cs, post, h => by
    have hc : ¬ (c = '_') := fun hc => h (by simp [hc])
    simp only [List.cons_append, afterFirstUnderscore, if_neg hc]
    exact afterFirstUnderscore_append cs post (fun hm => h (List.mem_cons_of_mem _ hm))

/-- When, after whitespace skipping, the input does not start with an
optionally signed digit, the digit scan of `stoi` comes up empty. -/
theorem takeWhile_digits_nil (t : List Char)
    (h : beginsWithOptSignedDigit t = false) :
    (stripSign t).2.takeWhile Char.isDigit = [] := by
  rcases t with _ | ⟨c, rest⟩
  · rfl
  · simp only [beginsWithOptSignedDigit] at h
    by_cases hsign : c = '+' ∨ c = '-'
    · rw [if_pos hsign] at h
      have hs2 : (stripSign (c :: rest)).2 = rest := by
        rcases hsign with h1 | h1 <;> subst h1 <;> simp [stripSign]
      rw [hs2]
      rcases rest with _ | ⟨d, ds⟩
      · rfl
      · have hd : d.isDigit = false := h
        simp [List.takeWhile_cons, hd]
    · rw [if_neg hsign] at h
      push_neg at hsign
      have hs2 : (stripSign (c :: rest)).2 = c :: rest := by
        simp only [stripSign]
        rw [if_neg hsign.2, if_neg hsign.1]
      rw [hs2]
      simp [List.takeWhile_cons, h]

/-- `std::stoi` throws `std::invalid_argument` when, after whitespace
skipping, its input does not start with an optionally signed digit. -/
theorem stoi_error_of_nonnumeric_start (s : List Char)
    (h : beginsWithOptSignedDigit (s.dropWhile isSpaceChar) = false) :
    stoi s = .error .invalidArgument := by
  have hds := takeWhile_digits_nil (s.dropWhile isSpaceChar) h
  simp [stoi, hds]

/-! ## C3 -/

/-- C3, counterexample: the claim says the index is the integer parsed
after the LAST underscore; on the name `Motion_2_3` the code parses after
the FIRST underscore and returns 2, while the last-underscore reading
gives 3. -/
theorem C3_counterexample :
    get_index_from_stream_name ("Motion_2_3".toList) = .ok 2 ∧
    spec_index_after_last_underscore ("Motion_2_3".toList) = .ok 3 ∧
    (2 : Int) ≠ 3 := by decide

/-- C3 (amended): for every stream name containing an underscore,
`get_index_from_stream_name` returns `std::stoi` of the substring after
the FIRST underscore; for every name without an underscore it returns
index 0. -/
theorem C3_index_after_first_underscore :
    (∀ pre post : List Char, '_' ∉ pre →
      get_index_from_stream_name (pre ++ '_' :: post) = stoi post) ∧
    (∀ name : List Char, '_' ∉ name → get_index_from_stream_name name = .ok 0) := by
  constructor
  · intro pre post h
    simp only [get_index_from_stream_name, afterFirstUnderscore_append pre post h]
  · intro name h
    simp only [get_index_from_stream_name, afterFirstUnderscore_eq_none name h]

/-- C3 witness: the amended statement at the names `Depth_0` and
`Color`. -/
theorem C3_index_after_first_underscore_witness :
    get_index_from_stream_name ("Depth".toList ++ '_' :: "0".toList) = stoi ("0".toList) ∧
    get_index_from_stream_name ("Color".toList) = .ok 0 :=
  ⟨C3_index_after_first_underscore.1 "Depth".toList "0".toList (by decide),
   C3_index_after_first_underscore.2 "Color".toList (by decide)⟩

/-! ## C10 -/

/-- C10, counterexample: the claim says `std::stoi` throws for every name
whose substring after the first underscore does not begin with an
optionally signed decimal digit, but `std::stoi` first skips whitespace:
for `Depth_ 1` the substring is ` 1`, which begins with a space, yet the
code returns index 1 instead of throwing. -/
theorem C10_counterexample :
    afterFirstUnderscore ("Depth_ 1".toList) = some (" 1".toList) ∧
    beginsWithOptSignedDigit (" 1".toList) = false ∧
    get_index_from_stream_name ("Depth_ 1".toList) = .ok 1 := by decide

/-- C10 (amended): for every stream name containing an underscore whose
substring after the first underscore, after skipping leading whitespace,
does not begin with an optionally signed decimal digit, `std::stoi`
throws `std::invalid_argument` (e.g. for `Infrared_Left`), and the
resulting exception escapes the catalog-build step, aborting device-proxy
construction. -/
theorem C10_nonnumeric_suffix_aborts :
    (∀ pre post : List Char, '_' ∉ pre →
       beginsWithOptSignedDigit (post.dropWhile isSpaceChar) = false →
       get_index_from_stream_name (pre ++ '_' :: post) = .error .invalidArgument) ∧
    get_index_from_stream_name ("Infrared_Left".toList) = .error .invalidArgument ∧
    (∀ (st : CatalogState) (stream : DdsStream) (t : Rs2Stream) (e : StoiError),
       to_rs2_stream_type stream.type_string = .ok t →
       get_index_from_stream_name stream.name = .error e →
       processStream st stream = .error (.indexParse e)) := by
  refine ⟨?_, by decide, ?_⟩
  · intro pre post hp hb
    simp only [get_index_from_stream_name, afterFirstUnderscore_append pre post hp]
    exact stoi_error_of_nonnumeric_start post hb
  · intro st stream t e ht he
    simp [processStream, ht, he]

/-- A stream whose name has a non-numeric suffix after its underscore. -/
def c10Stream : DdsStream :=
  { exStreamA with name := "Infrared_Left".toList, type_string := "ir" }

/-- C10 witness: the amended statement at `Infrared_Left`, including the
construction abort. -/
theorem C10_nonnumeric_suffix_aborts_witness :
    get_index_from_stream_name ("Infrared".toList ++ '_' :: "Left".toList)
      = .error .invalidArgument ∧
    processStream (initCatalog 0) c10Stream = .error (.indexParse .invalidArgument) :=
  ⟨C10_nonnumeric_suffix_aborts.1 "Infrared".toList "Left".toList (by decide) (by decide),
   C10_nonnumeric_suffix_aborts.2.2 (initCatalog 0) c10Stream .infrared .invalidArgument
     (by decide) (by decide)⟩

/-! ## C8 -/

/-- C8: `to_rs2_stream_type` maps exactly the five tags `depth`, `color`,
`ir`, `motion`, `confidence` to their `rs2_stream` values; every other
string throws `invalid_value_exception`; and an unknown tag on any stream
makes the catalog build — and hence device-proxy construction — fail with
that error. -/
theorem C8_stream_type_closed_set :
    to_rs2_stream_type "depth" = .ok .depth ∧
    to_rs2_stream_type "color" = .ok .color ∧
    to_rs2_stream_type "ir" = .ok .infrared ∧
    to_rs2_stream_type "motion" = .ok .motion ∧
    to_rs2_stream_type "confidence" = .ok .confidence ∧
    (∀ s : String, s ≠ "depth" → s ≠ "color" → s ≠ "ir" → s ≠ "motion" →
      s ≠ "confidence" →
      to_rs2_stream_type s = .error ("unknown stream type " ++ s)) ∧
    (∀ (st : CatalogState) (stream : DdsStream) (msg : String),
      to_rs2_stream_type stream.type_string = .error msg →
      processStream st stream = .error (.unknownType msg)) ∧
    (∀ (st : CatalogState) (stream : DdsStream) (rest : List DdsStream) (e : BuildErr),
      processStream st stream = .error e →
      processStreams st (stream :: rest) = .error e) := by
  refine ⟨by decide, by decide, by decide, by decide, by decide, ?_, ?_, ?_⟩
  · intro s h1 h2 h3 h4 h5
    simp [to_rs2_stream_type, h1, h2, h3, h4, h5]
  · intro st stream msg ht
    simp [processStream, ht]
  · intro st stream rest e h
    simp [processStreams, h]

/-- A stream carrying an unknown type tag. -/
def c8Stream : DdsStream :=
  { exStreamA with name := "Fisheye_0".toList, type_string := "fisheye" }

/-- C8 witness: the tag `infrared` (not a member of the closed tag set) is
rejected, and one stream with tag `fisheye` aborts the whole build. -/
theorem C8_stream_type_closed_set_witness :
    to_rs2_stream_type "infrared" = .error ("unknown stream type " ++ "infrared") ∧
    processStreams (initCatalog 0) [c8Stream]
      = .error (.unknownType ("unknown stream type " ++ "fisheye")) :=
  ⟨C8_stream_type_closed_set.2.2.2.2.2.1 "infrared"
      (by decide) (by decide) (by decide) (by decide) (by decide),
   C8_stream_type_closed_set.2.2.2.2.2.2.2 (initCatalog 0) c8Stream []
      (.unknownType ("unknown stream type " ++ "fisheye"))
      (C8_stream_type_closed_set.2.2.2.2.2.2.1 (initCatalog 0) c8Stream
        ("unknown stream type " ++ "fisheye") (by decide))⟩

/-! ## C1 -/

/-- An earlier binding in an association list survives appending. -/
theorem alookup_append_left {α β : Type} [DecidableEq α] :
    ∀ (m l : List (α × β)) (k : α) (v : β),
      alookup m k = some v → alookup (m ++ l) k = some v
  | [], _, _, _, h => by simp [alookup] at h
  | (a, b) :: rest, l, k, v, h => by
    simp only [alookup] at h ⊢
    by_cases hk : a = k
    · rwa [if_pos hk] at h ⊢
    · rw [if_neg hk] at h ⊢
      exact alookup_append_left rest l k v h

/-- `std::map::insert` never disturbs an existing binding. -/
theorem minsert_preserves {α β : Type} [DecidableEq α]
    (m : List (α × β)) (a : α) (b : β) (k : α) (v : β)
    (h : alookup m k = some v) : alookup (minsert m a b) k = some v := by
  unfold minsert
  rcases alookup m a with _ | w
  · exact alookup_append_left m [(a, b)] k v h
  · exact h

/-- One catalog-build step never disturbs an existing dedup binding. -/
theorem processStream_preserves_dedup
    (st : CatalogState) (stream : DdsStream) (st2 : CatalogState)
    (k : Rs2Stream × Int) (v : SidIndex)
    (h : processStream st stream = .ok st2)
    (hk : alookup st.dedup k = some v) : alookup st2.dedup k = some v := by
  simp only [processStream] at h
  rcases ht : to_rs2_stream_type stream.type_string with msg | t
  · rw [ht] at h
    exact Except.noConfusion h
  · rw [ht] at h
    rcases hi : get_index_from_stream_name stream.name with e | index
    · rw [hi] at h
      exact Except.noConfusion h
    · rw [hi] at h
      cases Except.ok.inj h
      exact minsert_preserves st.dedup _ _ k v hk

/-- C1, counterexample: two depth streams whose names both parse to
index 1 produce the same `TypeIndexKey`; after the build the dedup map
still holds the FIRST stream's `sid_index` (sid 100), not the most
recently inserted one (sid 101) — `std::map::insert` does not
overwrite — refuting last-write-wins (`next_sid = 102` confirms both
streams were processed and consumed an id). -/
theorem C1_counterexample :
    ((buildCatalog [exStreamA, exStreamB] 100).toOption.map
      fun st => (alookup st.dedup (Rs2Stream.depth, 1), st.next_sid))
      = some (some ⟨100, 1⟩, 102) ∧
    (⟨100, 1⟩ : SidIndex) ≠ ⟨101, 1⟩ := by decide

/-- C1 (amended): when a later stream produces an already-present
`TypeIndexKey`, the insertion is a no-op — the EARLIEST binding wins:
any binding present in the dedup map is still there, unchanged, after
processing any further streams, so downstream re-linking sees the first
inserted stream's `StreamIdentity`. -/
theorem C1_first_write_wins :
    ∀ (rest : List DdsStream) (st st2 : CatalogState)
      (k : Rs2Stream × Int) (v : SidIndex),
      processStreams st rest = .ok st2 → alookup st.dedup k = some v →
      alookup st2.dedup k = some v := by
  intro rest
  induction rest with
  | nil =>
    intro st st2 k v h hk
    simp only [processStreams] at h
    exact Except.ok.inj h ▸ hk
  | cons s rest ih =>
    intro st st2 k v h hk
    simp only [processStreams] at h
    rcases hps : processStream st s with e | st1
    · rw [hps] at h
      exact Except.noConfusion h
    · rw [hps] at h
      exact ih st1 st2 k v h (processStream_preserves_dedup st s st1 k v hps hk)

/-- Concrete depth stream named `X_1`, colliding with an existing dedup
binding for `(depth, 1)`. -/
def exStreamD : DdsStream :=
  { exStreamA with name := "X_1".toList, sensor_name := "S" }

/-- A mid-build catalog state already holding a `(depth, 1)` binding. -/
def c1StateW : CatalogState :=
  { next_sid := 7
    sensors := ["S"]
    dedup := [((.depth, 1), ⟨5, 1⟩)]
    name_to_handle := []
    name_to_owner := []
    sensor_streams := [] }

/-- The state after processing `exStreamD` from `c1StateW`: the colliding
insert left the dedup binding at sid 5 while the other maps grew. -/
def c1StateW2 : CatalogState :=
  { next_sid := 8
    sensors := ["S"]
    dedup := [((.depth, 1), ⟨5, 1⟩)]
    name_to_handle := [("X_1".toList, (.depth, 1))]
    name_to_owner := [("X_1".toList, "S")]
    sensor_streams := [("S", [(⟨7, 1⟩, exStreamD)])] }

/-- C1 witness: the amended statement at a concrete colliding stream. -/
theorem C1_first_write_wins_witness :
    alookup c1StateW2.dedup (Rs2Stream.depth, 1) = some ⟨5, 1⟩ :=
  C1_first_write_wins [exStreamD] c1StateW c1StateW2 (Rs2Stream.depth, 1) ⟨5, 1⟩
    (by decide) (by decide)

/-! ## C2 -/

/-- C2: the code's actual behavior at the failing input.  A post-synthesis
infrared profile with index 0 whose `(type, index)` key is absent from the
dedup map makes `type_and_index_to_dds_stream_sidx.at` throw
`std::out_of_range`, which propagates out of the constructor — it is NOT
the logged, non-fatal skip the spec requires (only a key that is present
but maps to a `sid_index` outside the sensor's own stream map is
skipped). -/
theorem C2_absent_key_throws :
    post_link_profile [((Rs2Stream.infrared, 1), ⟨10, 1⟩)] [] c2Profile
      = .error (.keyNotFound (Rs2Stream.infrared, 0)) := by decide

/-! ## C5 -/

/-- `set_video_profile_intrinsics` only touches the shape. -/
theorem set_video_profile_intrinsics_unique_id (p : LocalProfile) (s : DdsStream) :
    (set_video_profile_intrinsics p s).unique_id = p.unique_id := by
  simp only [set_video_profile_intrinsics]
  split
  · rfl
  · split
    · rfl
    · rfl

/-- `set_motion_profile_intrinsics` only touches the shape. -/
theorem set_motion_profile_intrinsics_unique_id (p : LocalProfile) (s : DdsStream) :
    (set_motion_profile_intrinsics p s).unique_id = p.unique_id := by
  simp only [set_motion_profile_intrinsics]
  split
  · rfl
  · rfl

/-- `set_profile_intrinsics` only touches the shape. -/
theorem set_profile_intrinsics_unique_id (p : LocalProfile) (s : DdsStream) :
    (set_profile_intrinsics p s).unique_id = p.unique_id := by
  simp only [set_profile_intrinsics]
  split
  · exact set_video_profile_intrinsics_unique_id p s
  · exact set_motion_profile_intrinsics_unique_id p s

/-- `tag_default_profile_of_stream` either throws on an unknown type tag,
or returns its profile unchanged, or returns it with only the default tag
added. -/
theorem tag_default_profile_of_stream_eq (p : LocalProfile) (s : DdsStream) :
    (∃ msg, tag_default_profile_of_stream p s = .error (.unknownType msg)) ∨
    tag_default_profile_of_stream p s = .ok p ∨
    tag_default_profile_of_stream p s = .ok { p with default_tagged := true } := by
  simp only [tag_default_profile_of_stream]
  split
  · exact Or.inr (Or.inl rfl)
  · split
    · exact Or.inl ⟨_, rfl⟩
    · split
      · split
        · split
          · exact Or.inr (Or.inl rfl)
          · exact Or.inr (Or.inr rfl)
        · exact Or.inr (Or.inr rfl)
      · exact Or.inr (Or.inl rfl)

/-- Default tagging never changes the public unique id. -/
theorem tag_default_unique_id (p : LocalProfile) (s : DdsStream) (q : LocalProfile)
    (h : tag_default_profile_of_stream p s = .ok q) : q.unique_id = p.unique_id := by
  rcases tag_default_profile_of_stream_eq p s with ⟨msg, he⟩ | he | he
  · rw [he] at h
    exact Except.noConfusion h
  · rw [he] at h
    cases Except.ok.inj h
    rfl
  · rw [he] at h
    cases Except.ok.inj h
    rfl

/-- C5: every profile matched to a remote stream by the post-link pass —
its `(type, index)` key bound to a `sid_index` in the dedup map, and that
`sid_index` present in the sensor's stream map — comes out of the pass
with its public unique id equal to that `sid_index`'s sid, whatever
unique id the synthesis step left behind. -/
theorem C5_unique_id_restored :
    ∀ (dedup : List ((Rs2Stream × Int) × SidIndex))
      (streams : List (SidIndex × DdsStream))
      (p : LocalProfile) (sidx : SidIndex) (stream : DdsStream) (q : LocalProfile),
      alookup dedup (p.stream_type, p.stream_index) = some sidx →
      alookup streams sidx = some stream →
      post_link_profile dedup streams p = .ok q →
      q.unique_id = sidx.sid := by
  intro dedup streams p sidx stream q h1 h2 h3
  simp only [post_link_profile, h1, h2] at h3
  rw [tag_default_unique_id _ stream q h3, set_profile_intrinsics_unique_id]

/-- The profile `c6Profile` after its post-link: only the unique id
changes (framerate 60 does not match the default profile, and no 640x480
intrinsics record exists). -/
def c5q : LocalProfile := { c6Profile with unique_id := 50 }

/-- C5 witness: the statement at a concrete matched profile. -/
theorem C5_unique_id_restored_witness : c5q.unique_id = 50 :=
  C5_unique_id_restored c6Dedup c6Streams c6Profile ⟨50, 0⟩ c6Stream c5q
    (by decide) (by decide) (by decide)

/-! ## C6 -/

/-- The captured-value accessor evaluates immediately, at any fuel. -/
theorem evalVideoAccessor_captured (i : Rs2Intrinsics) (n : Nat) :
    evalVideoAccessor (.captured i) n = some i := by
  cases n <;> rfl

/-- The captured-value motion accessor evaluates immediately, at any
fuel. -/
theorem evalMotionAccessor_captured (i : Rs2MotionDeviceIntrinsic) (n : Nat) :
    evalMotionAccessor (.captured i) n = some i := by
  cases n <;> rfl

/-- The synthesis wiring never produces a value, at any fuel. -/
theorem evalVideoAccessor_synthWired (n : Nat) :
    evalVideoAccessor .synthWired n = none := by
  induction n with
  | zero => rfl
  | succ n ih => simpa [evalVideoAccessor] using ih

/-- C6, counterexample: a matched 640x480 video profile whose stream
carries only a 1280x720 intrinsics record.  The post-link pass completes
(the unique id is restored, so the match really happened), but the
intrinsics accessor is NOT re-bound: it remains the synthesis wiring,
whose evaluation delegates forever and produces no value — refuting the
claim that every matched profile gets a terminating, value-capturing
accessor. -/
theorem C6_counterexample :
    alookup c6Dedup (Rs2Stream.depth, 0) = some ⟨50, 0⟩ ∧
    alookup c6Streams (⟨50, 0⟩ : SidIndex) = some c6Stream ∧
    ((post_link_profile c6Dedup c6Streams c6Profile).toOption.map LocalProfile.unique_id)
      = some 50 ∧
    ((post_link_profile c6Dedup c6Streams c6Profile).toOption.map LocalProfile.shape)
      = some (.videoShape 640 480 1 .synthWired) ∧
    evalVideoAccessor .synthWired 1000 = none :=
  ⟨by decide, by decide, by decide, by decide, evalVideoAccessor_synthWired 1000⟩

/-- C6 (amended): `set_video_profile_intrinsics` re-binds the accessor to
a value-capturing, immediately-terminating closure holding the matched
stream's intrinsics record with the profile's width and height IF such a
record exists, and leaves the profile untouched otherwise; and
`set_motion_profile_intrinsics` always re-binds a motion profile's
accessor to a value-capturing closure holding the stream's
motion-intrinsics record. -/
theorem C6_intrinsics_rebinding :
    (∀ (p : LocalProfile) (stream : DdsStream) (w hgt fmt : Int)
       (acc : VideoAccessor) (intr : VideoIntrinsics),
       p.shape = .videoShape w hgt fmt acc →
       findVideoIntrinsics stream.video_intrinsics w hgt = some intr →
       (set_video_profile_intrinsics p stream).shape
         = .videoShape w hgt fmt (.captured (rs2IntrinsicsOfVideo intr)) ∧
       ∀ n, evalVideoAccessor (.captured (rs2IntrinsicsOfVideo intr)) n
         = some (rs2IntrinsicsOfVideo intr)) ∧
    (∀ (p : LocalProfile) (stream : DdsStream) (w hgt fmt : Int)
       (acc : VideoAccessor),
       p.shape = .videoShape w hgt fmt acc →
       findVideoIntrinsics stream.video_intrinsics w hgt = none →
       set_video_profile_intrinsics p stream = p) ∧
    (∀ (p : LocalProfile) (stream : DdsStream) (acc : MotionAccessor),
       p.shape = .motionShape acc →
       (set_motion_profile_intrinsics p stream).shape
         = .motionShape (.captured (rs2MotionIntrinsicsOf stream.gyro_intrinsics)) ∧
       ∀ n, evalMotionAccessor (.captured (rs2MotionIntrinsicsOf stream.gyro_intrinsics)) n
         = some (rs2MotionIntrinsicsOf stream.gyro_intrinsics)) := by
  refine ⟨?_, ?_, ?_⟩
  · intro p stream w hgt fmt acc intr hs hf
    constructor
    · simp [set_video_profile_intrinsics, hs, hf]
    · exact evalVideoAccessor_captured _
  · intro p stream w hgt fmt acc hs hf
    simp [set_video_profile_intrinsics, hs, hf]
  · intro p stream acc hs
    constructor
    · simp [set_motion_profile_intrinsics, hs]
    · exact evalMotionAccessor_captured _

/-- A matched 1280x720 video profile (its stream does carry a 1280x720
intrinsics record). -/
def c6pMatch : LocalProfile :=
  { c6Profile with shape := .videoShape 1280 720 1 .synthWired }

/-- A motion-shaped profile. -/
def c6pMotion : LocalProfile :=
  { c6Profile with shape := .motionShape .synthWired }

/-- C6 witness: the amended statement at concrete profiles — a video
profile with a matching record gets the captured closure, one without a
matching record is untouched, and a motion profile always gets the
captured closure. -/
theorem C6_intrinsics_rebinding_witness :
    (set_video_profile_intrinsics c6pMatch c6Stream).shape
      = .videoShape 1280 720 1 (.captured (rs2IntrinsicsOfVideo exIntr720)) ∧
    set_video_profile_intrinsics c6Profile c6Stream = c6Profile ∧
    (set_motion_profile_intrinsics c6pMotion c6Stream).shape
      = .motionShape (.captured (rs2MotionIntrinsicsOf c6Stream.gyro_intrinsics)) :=
  ⟨(C6_intrinsics_rebinding.1 c6pMatch c6Stream 1280 720 1 .synthWired exIntr720
      (by decide) (by decide)).1,
   C6_intrinsics_rebinding.2.1 c6Profile c6Stream 640 480 1 .synthWired
      (by decide) (by decide),
   (C6_intrinsics_rebinding.2.2 c6pMotion c6Stream .synthWired (by decide)).1⟩

/-! ## C4 -/

/-- C4: for a stream with a valid type tag and default profile, an
untagged profile leaves `tag_default_profile_of_stream` tagged default if
and only if its stream type equals the remote stream's type, its
framerate equals the remote default profile's framerate, and — whenever
both the profile and the remote default are video-shaped — its width,
height and format all equal the remote default's; in particular a video
profile with matching framerate but different resolution or format is
never tagged. -/
theorem C4_default_tag_iff :
    ∀ (p : LocalProfile) (stream : DdsStream) (t : Rs2Stream)
      (dp : DdsStreamProfile) (q : LocalProfile),
      to_rs2_stream_type stream.type_string = .ok t →
      default_profile stream = some dp →
      p.default_tagged = false →
      tag_default_profile_of_stream p stream = .ok q →
      (q.default_tagged = true ↔
        (p.stream_type = t ∧ p.framerate = dp.frequency ∧
          ∀ (w hgt fmt : Int) (acc : VideoAccessor) (dv : DdsVideoData),
            p.shape = .videoShape w hgt fmt acc → dp.video = some dv →
            w = dv.width ∧ hgt = dv.height ∧ fmt = dv.format)) := by
  intro p stream t dp q ht hdp hpf h
  simp only [tag_default_profile_of_stream, hdp, ht] at h
  split at h
  · rename_i hc
    split at h
    · rename_i w hgt fmt acc dv hs hv
      split at h
      · rename_i hdim
        cases Except.ok.inj h
        constructor
        · intro h'
          rw [hpf] at h'
          exact absurd h' (by decide)
        · rintro ⟨-, -, hall⟩
          obtain ⟨e1, e2, e3⟩ := hall w hgt fmt acc dv hs hv
          rcases hdim with hd | hd | hd
          · exact absurd e1 hd
          · exact absurd e2 hd
          · exact absurd e3 hd
      · rename_i hdim
        cases Except.ok.inj h
        push_neg at hdim
        constructor
        · intro _
          refine ⟨hc.1, hc.2, ?_⟩
          intro w' hgt' fmt' acc' dv' hs' hv'
          rw [hs] at hs'
          injection hs' with hw hh hf ha
          rw [hv] at hv'
          injection hv' with hdv
          subst hw
          subst hh
          subst hf
          subst hdv
          exact ⟨hdim.1, hdim.2.1, hdim.2.2⟩
        · intro _
          rfl
    · rename_i hnomatch
      cases Except.ok.inj h
      constructor
      · intro _
        refine ⟨hc.1, hc.2, ?_⟩
        intro w' hgt' fmt' acc' dv' hs' hv'
        exact (hnomatch w' hgt' fmt' acc' dv' hs' hv').elim
      · intro _
        rfl
  · rename_i hc
    cases Except.ok.inj h
    constructor
    · intro h'
      rw [hpf] at h'
      exact absurd h' (by decide)
    · rintro ⟨h1, h2, -⟩
      exact absurd ⟨h1, h2⟩ hc

/-- A 1280x720 depth profile at framerate 30, matching `c6Stream`'s
default profile exactly. -/
def c4p : LocalProfile :=
  { c6Profile with framerate := 30, shape := .videoShape 1280 720 1 .synthWired }

/-- The expected output of tagging `c4p` against `c6Stream`. -/
def c4q : LocalProfile := { c4p with default_tagged := true }

/-- The default profile of `c6Stream`. -/
def c4dp : DdsStreamProfile :=
  { frequency := 30, video := some { width := 1280, height := 720, format := 1 } }

/-- C4 witness: the iff applied at a fully matching concrete profile
yields the default tag. -/
theorem C4_default_tag_iff_witness : c4q.default_tagged = true :=
  (C4_default_tag_iff c4p c6Stream .depth c4dp c4q
      (by decide) (by decide) (by decide) (by decide)).mpr
    ⟨by decide, by decide, by
      intro w hgt fmt acc dv hs hv
      injection hs with hw hh hf ha
      injection hv with hdv
      subst hw
      subst hh
      subst hf
      subst hdv
      exact ⟨rfl, rfl, rfl⟩⟩

/-! ## C7 -/

/-- Membership in the inner extrinsics loop's output: an edge appears for
`from`-name `f` exactly when it starts at `f`, ends at some distinct
registered name, and the transform source answered for that ordered
pair. -/
theorem mem_pass1Inner (g : StreamName → StreamName → Option DdsExtrinsics)
    (f : StreamName) :
    ∀ (l : List (StreamName × (Rs2Stream × Int))) (a b : StreamName) (e : Rs2Extrinsics),
      (a, b, e) ∈ pass1Inner g f l ↔
        (a = f ∧ b ∈ l.map Prod.fst ∧ f ≠ b ∧
          ∃ de, g f b = some de ∧ e = to_rs2_extrinsics de)
  | [], a, b, e => by simp [pass1Inner]
  | (toName, hd) :: rest, a, b, e => by
    have ih := mem_pass1Inner g f rest a b e
    simp only [pass1Inner]
    by_cases hne : f ≠ toName
    · rw [if_pos hne]
      rcases hg : g f toName with _ | de
      · simp only [hg]
        rw [ih]
        simp only [List.map_cons, List.mem_cons]
        constructor
        · rintro ⟨ha, hb, hfb, de, hde, he⟩
          exact ⟨ha, Or.inr hb, hfb, de, hde, he⟩
        · rintro ⟨ha, hb | hb, hfb, de, hde, he⟩
          · subst hb
            rw [hg] at hde
            exact Option.noConfusion hde
          · exact ⟨ha, hb, hfb, de, hde, he⟩
      · simp only [hg]
        rw [List.mem_cons, ih]
        simp only [List.map_cons, List.mem_cons, Prod.mk.injEq]
        constructor
        · rintro (⟨ha, hb, he⟩ | ⟨ha, hb, hfb, de', hde', he'⟩)
          · refine ⟨ha, Or.inl hb, ?_, de, ?_, he⟩
            · subst hb
              exact hne
            · rw [hb]
              exact hg
          · exact ⟨ha, Or.inr hb, hfb, de', hde', he'⟩
        · rintro ⟨ha, hb | hb, hfb, de', hde', he'⟩
          · left
            subst hb
            rw [hg] at hde'
            have hdd : de = de' := Option.some.inj hde'
            subst hdd
            exact ⟨ha, rfl, he'⟩
          · right
            exact ⟨ha, hb, hfb, de', hde', he'⟩
    · rw [if_neg hne]
      push_neg at hne
      rw [ih]
      simp only [List.map_cons, List.mem_cons]
      constructor
      · rintro ⟨ha, hb, hfb, hrest⟩
        exact ⟨ha, Or.inr hb, hfb, hrest⟩
      · rintro ⟨ha, hb | hb, hfb, hrest⟩
        · exact absurd (hne.trans hb.symm) hfb
        · exact ⟨ha, hb, hfb, hrest⟩

/-- Membership in the outer extrinsics loop's output. -/
theorem mem_pass1Outer (g : StreamName → StreamName → Option DdsExtrinsics)
    (all : List (StreamName × (Rs2Stream × Int))) :
    ∀ (l : List (StreamName × (Rs2Stream × Int))) (a b : StreamName) (e : Rs2Extrinsics),
      (a, b, e) ∈ pass1Outer g all l ↔
        (a ∈ l.map Prod.fst ∧ (a, b, e) ∈ pass1Inner g a all)
  | [], a, b, e => by simp [pass1Outer]
  | (fromName, hd) :: rest, a, b, e => by
    have ih := mem_pass1Outer g all rest a b e
    simp only [pass1Outer, List.mem_append, List.map_cons, List.mem_cons]
    rw [ih]
    constructor
    · rintro (hin | ⟨hmem, hinner⟩)
      · have ha : a = fromName := ((mem_pass1Inner g fromName all a b e).mp hin).1
        subst ha
        exact ⟨Or.inl rfl, hin⟩
      · exact ⟨Or.inr hmem, hinner⟩
    · rintro ⟨ha | hmem, hinner⟩
      · subst ha
        exact Or.inl hinner
      · exact Or.inr ⟨hmem, hinner⟩

/-- The inner loop for a `from`-name other than `A` contributes no
`A`-to-`B` edge. -/
theorem countP_pass1Inner_ne (g : StreamName → StreamName → Option DdsExtrinsics)
    (f : StreamName) (A B : StreamName) (hA : f ≠ A) :
    ∀ (l : List (StreamName × (Rs2Stream × Int))),
      (pass1Inner g f l).countP (edgeFromTo A B) = 0
  | [] => by simp [pass1Inner]
  | (toName, hd) :: rest => by
    have ih := countP_pass1Inner_ne g f A B hA rest
    simp only [pass1Inner]
    by_cases hne : f ≠ toName
    · rw [if_pos hne]
      rcases hg : g f toName with _ | de
      · simp only [hg]
        exact ih
      · simp only [hg]
        rw [List.countP_cons_of_neg]
        · exact ih
        · simp [edgeFromTo, hA]
    · rw [if_neg hne]
      exact ih

/-- The inner loop for `from`-name `A` contributes one `A`-to-`B` edge
per occurrence of `B` among the walked names when the transform source
answers for `(A, B)`, and none otherwise. -/
theorem countP_pass1Inner_self (g : StreamName → StreamName → Option DdsExtrinsics)
    (A B : StreamName) (hAB : A ≠ B) :
    ∀ (l : List (StreamName × (Rs2Stream × Int))),
      (pass1Inner g A l).countP (edgeFromTo A B)
        = if (g A B).isSome then (l.map Prod.fst).count B else 0
  | [] => by simp [pass1Inner]
  | (toName, hd) :: rest => by
    have ih := countP_pass1Inner_self g A B hAB rest
    simp only [pass1Inner]
    by_cases hne : A ≠ toName
    · rw [if_pos hne]
      rcases hg : g A toName with _ | de
      · simp only [hg]
        rw [ih]
        by_cases hb : toName = B
        · subst hb
          simp [hg]
        · simp only [List.map_cons]
          rw [List.count_cons_of_ne (fun h => hb h.symm)]
      · simp only [hg]
        by_cases hb : toName = B
        · subst hb
          rw [List.countP_cons_of_pos]
          · rw [ih]
            simp [hg, List.count_cons_self]
          · simp [edgeFromTo]
        · rw [List.countP_cons_of_neg]
          · rw [ih]
            simp only [List.map_cons]
            rw [List.count_cons_of_ne (fun h => hb h.symm)]
          · simp [edgeFromTo, hb]
    · rw [if_neg hne]
      push_neg at hne
      rw [ih]
      subst hne
      simp only [List.map_cons]
      rw [List.count_cons_of_ne (fun h => hAB h.symm)]

/-- The outer loop multiplies the inner contribution by the number of
occurrences of the `from`-name among the iterated entries. -/
theorem countP_pass1Outer (g : StreamName → StreamName → Option DdsExtrinsics)
    (all : List (StreamName × (Rs2Stream × Int))) (A B : StreamName) :
    ∀ (l : List (StreamName × (Rs2Stream × Int))),
      (pass1Outer g all l).countP (edgeFromTo A B)
        = (l.map Prod.fst).count A * (pass1Inner g A all).countP (edgeFromTo A B)
  | [] => by simp [pass1Outer]
  | (fromName, hd) :: rest => by
    have ih := countP_pass1Outer g all A B rest
    simp only [pass1Outer, List.countP_append, List.map_cons]
    rw [ih]
    by_cases ha : fromName = A
    · subst ha
      rw [List.count_cons_self]
      ring
    · rw [List.count_cons_of_ne (fun h => ha h.symm)]
      rw [countP_pass1Inner_ne g fromName A B ha all]
      simp

/-- In a duplicate-free list every member occurs exactly once (stated for
the `BEq` instance in scope, as used by the counting lemmas above). -/
theorem count_eq_one_of_nodup_mem {α : Type} [BEq α] [LawfulBEq α] :
    ∀ (l : List α) (a : α), l.Nodup → a ∈ l → l.count a = 1
  | [], a, _, h => absurd h (List.not_mem_nil a)
  | b :: l, a, hnd, hmem => by
    rcases List.mem_cons.mp hmem with h | h
    · subst h
      rw [List.count_cons_self]
      rw [List.count_eq_zero.mpr (List.Nodup.not_mem hnd)]
    · have hne : a ≠ b := by
        intro hab
        subst hab
        exact List.Nodup.not_mem hnd h
      rw [List.count_cons_of_ne hne]
      exact count_eq_one_of_nodup_mem l a (List.Nodup.of_cons hnd) h

/-- C7: an `A`-to-`B` edge with transform `e` is registered iff both
names are registered, distinct, and `get_extrinsics(A, B)` answered with
the transform `e` copies; and when `get_extrinsics(A, B)` answers while
`get_extrinsics(B, A)` does not, exactly one `A`-to-`B` edge and no
`B`-to-`A` edge is registered — no inverse edge is synthesized, with no
error. -/
theorem C7_extrinsics_directed_edges :
    (∀ (nameTo : List (StreamName × (Rs2Stream × Int)))
       (getExtr : StreamName → StreamName → Option DdsExtrinsics)
       (a b : StreamName) (e : Rs2Extrinsics),
       (a, b, e) ∈ register_extrinsics_edges nameTo getExtr ↔
         (a ∈ nameTo.map Prod.fst ∧ b ∈ nameTo.map Prod.fst ∧ a ≠ b ∧
           ∃ de, getExtr a b = some de ∧ e = to_rs2_extrinsics de)) ∧
    (∀ (nameTo : List (StreamName × (Rs2Stream × Int)))
       (getExtr : StreamName → StreamName → Option DdsExtrinsics)
       (A B : StreamName) (T : DdsExtrinsics),
       (nameTo.map Prod.fst).Nodup →
       A ∈ nameTo.map Prod.fst → B ∈ nameTo.map Prod.fst → A ≠ B →
       getExtr A B = some T → getExtr B A = none →
       (register_extrinsics_edges nameTo getExtr).countP (edgeFromTo A B) = 1 ∧
       (register_extrinsics_edges nameTo getExtr).countP (edgeFromTo B A) = 0) := by
  constructor
  · intro nameTo g a b e
    rw [register_extrinsics_edges, mem_pass1Outer, mem_pass1Inner]
    constructor
    · rintro ⟨hmem, -, hb, hfb, hrest⟩
      exact ⟨hmem, hb, hfb, hrest⟩
    · rintro ⟨ha, hb, hab, hrest⟩
      exact ⟨ha, rfl, hb, hab, hrest⟩
  · intro nameTo g A B T hnd hA hB hAB hgAB hgBA
    constructor
    · rw [register_extrinsics_edges, countP_pass1Outer]
      rw [countP_pass1Inner_self g A B hAB nameTo]
      simp only [hgAB, Option.isSome_some, if_true]
      rw [count_eq_one_of_nodup_mem _ A hnd hA, count_eq_one_of_nodup_mem _ B hnd hB]
    · rw [register_extrinsics_edges, countP_pass1Outer]
      rw [countP_pass1Inner_self g B A (fun h => hAB h.symm) nameTo]
      simp [hgBA]

/-- The two-stream name map of the spec's end-to-end example. -/
def c7NameTo : List (StreamName × (Rs2Stream × Int)) :=
  [("Depth_0".toList, (.depth, 0)), ("Color_0".toList, (.color, 0))]

/-- A concrete identity-rotation transform. -/
def c7T : DdsExtrinsics :=
  { rotation := [1, 0, 0, 0, 1, 0, 0, 0, 1], translation := [1, 0, 0] }

/-- A transform source answering only for the ordered pair
`(Depth_0, Color_0)`. -/
def c7Get (a b : StreamName) : Option DdsExtrinsics :=
  if a = "Depth_0".toList ∧ b = "Color_0".toList then some c7T else none

/-- C7 witness: the asymmetric concrete device yields exactly one
depth-to-color edge and no color-to-depth edge. -/
theorem C7_extrinsics_directed_edges_witness :
    (register_extrinsics_edges c7NameTo c7Get).countP
        (edgeFromTo ("Depth_0".toList) ("Color_0".toList)) = 1 ∧
    (register_extrinsics_edges c7NameTo c7Get).countP
        (edgeFromTo ("Color_0".toList) ("Depth_0".toList)) = 0 :=
  C7_extrinsics_directed_edges.2 c7NameTo c7Get
    ("Depth_0".toList) ("Color_0".toList) c7T
    (by decide) (by decide) (by decide) (by decide) (by decide) (by decide)

/-! ## C9 -/

/-- C9: routing a metadata payload never modifies the routing map;
a payload whose stream name is a key of the map produces exactly one
handler invocation on the owning sensor; a payload whose stream name is
not a key produces none, with no error. -/
theorem C9_metadata_routing :
    ∀ (owners : List (StreamName × String)) (md : MetadataMsg),
      ((route_metadata owners md).2 = owners) ∧
      (∀ s, alookup owners md.stream_name = some s →
        (route_metadata owners md).1 = [(s, md)]) ∧
      (alookup owners md.stream_name = none → (route_metadata owners md).1 = []) := by
  intro owners md
  refine ⟨?_, ?_, ?_⟩
  · simp only [route_metadata]
    rcases alookup owners md.stream_name with _ | s <;> rfl
  · intro s hs
    simp [route_metadata, hs]
  · intro hn
    simp [route_metadata, hn]

/-- The routing map of the spec's end-to-end example. -/
def c9Owners : List (StreamName × String) := [("Depth_0".toList, "Stereo Module")]

/-- Metadata for the known stream `Depth_0`. -/
def c9md1 : MetadataMsg := { stream_name := "Depth_0".toList, payload := 5 }

/-- Metadata for the unknown stream `Unknown_9`. -/
def c9md2 : MetadataMsg := { stream_name := "Unknown_9".toList, payload := 6 }

/-- C9 witness: `Depth_0` metadata is forwarded exactly once to the depth
sensor, `Unknown_9` metadata invokes no handler, and the map is
untouched. -/
theorem C9_metadata_routing_witness :
    (route_metadata c9Owners c9md1).1 = [("Stereo Module", c9md1)] ∧
    (route_metadata c9Owners c9md2).1 = [] ∧
    (route_metadata c9Owners c9md1).2 = c9Owners :=
  ⟨(C9_metadata_routing c9Owners c9md1).2.1 "Stereo Module" (by decide),
   (C9_metadata_routing c9Owners c9md2).2.2 (by decide),
   (C9_metadata_routing c9Owners c9md1).1⟩
